import Mathlib

/-!
Verification of the multi-regional microsite pipeline
(brief validation, compliance derivation, creative generation,
SEO optimization, geo deployment).

The definitions below are a shallow embedding of the TypeScript source:
  - inbound-orchestrator (validateInput, computeGeoCompliance, isValidUrl),
  - creative-engine (generateCreatives, stubAIGeneration, determineLayout),
  - seo-agent (optimizeSEO, generateMetadata, truncate, generateHreflangMap,
    stubKeywordDatabase, stubUrlBuilder),
  - geo-hub (executeGeoDeploy, isEuLocale, determineEdgeRegion, the two
    provisioning stubs),
  - main-orchestrator (runPipeline).

JavaScript strings are modelled as Lean strings operated on at the
character-list level; the platform URL parser and the possibly failing
generation backend are taken as explicit function parameters, and the
wall-clock values (ISO timestamp, deployment token) are explicit string
parameters.  Fallible methods return Except String.
-/

deriving instance DecidableEq for Except

set_option maxRecDepth 4096

namespace MicrositeFactory

/-- Model of JS toLowerCase, per character (the locale data is ASCII). -/
def lowerAscii (s : String) : String := ⟨s.data.map Char.toLower⟩

/-- Model of JS toUpperCase, per character. -/
def upperAscii (s : String) : String := ⟨s.data.map Char.toUpper⟩

/-- Model of JS s.split(sep)[0]: the prefix before the first separator. -/
def splitHead (sep : Char) (s : String) : String :=
  ⟨s.data.takeWhile (fun c => c != sep)⟩

/-- Model of JS s.trim(): whitespace stripped from both ends. -/
def trimString (s : String) : String :=
  ⟨((s.data.dropWhile Char.isWhitespace).reverse.dropWhile Char.isWhitespace).reverse⟩

/-- Model of JS s.substring(0, n): the first n characters. -/
def substringTo (s : String) (n : Nat) : String := ⟨s.data.take n⟩

/-- The language part of a locale: locale.split(hyphen)[0].toLowerCase(),
    shared by the validator and the deployment hub. -/
def langPart (locale : String) : String := lowerAscii (splitHead '-' locale)

/- ---------------- Data model (contracts.ts) ---------------- -/

inductive DataResidency where
  | EU
  | US
  | GLOBAL
deriving DecidableEq, Repr

structure GeoCompliance where
  requiresGDPR : Bool
  cookieConsentActive : Bool
  dataResidency : DataResidency
deriving DecidableEq, Repr

structure BriefAssets where
  logoUrl : String
  keywordsCsvUrl : String
deriving DecidableEq, Repr

structure BriefInput where
  campaignId : String
  brandName : String
  coreMessage : String
  targetLocales : List String
  assets : BriefAssets
deriving DecidableEq, Repr

inductive ProjectStatus where
  | VALIDATED
  | FAILED
deriving DecidableEq, Repr

structure ValidatedProject where
  projectId : String
  timestamp : String
  status : ProjectStatus
  payload : BriefInput
  compliance : GeoCompliance
deriving DecidableEq, Repr

/- ---------------- Inbound orchestrator: compliance ---------------- -/

/-- The validator's hardcoded EU locale-prefix set. -/
def euLocalesValidator : List String :=
  ["it", "fr", "de", "es", "pt", "nl", "be", "at", "ie", "pl", "se", "fi", "dk"]

/-- The for-loop of computeGeoCompliance: scans the locales and stops at the
    first EU-classified language part. -/
def isEuTargetedScan : List String → Bool
  | [] => false
  | locale :: rest =>
    if euLocalesValidator.contains (langPart locale) then true
    else isEuTargetedScan rest

/-- computeGeoCompliance from the inbound orchestrator. -/
def computeGeoCompliance (locales : List String) : GeoCompliance :=
  let isEuTargeted := isEuTargetedScan locales
  { requiresGDPR := isEuTargeted
    cookieConsentActive := isEuTargeted
    dataResidency := if isEuTargeted then DataResidency.EU else DataResidency.GLOBAL }

/- ---------------- Geo hub: region selection ---------------- -/

/-- The deployment hub's hardcoded EU prefix set. -/
def euPrefixesHub : List String :=
  ["it", "fr", "de", "es", "pt", "nl", "be", "at", "ie"]

/-- isEuLocale from the deployment hub. -/
def isEuLocale (locale : String) : Bool := euPrefixesHub.contains (langPart locale)

/-- The forEach counting loop of determineEdgeRegion: (euCount, usCount). -/
def regionCounts (locales : List String) : Nat × Nat :=
  locales.foldl
    (fun acc loc => if isEuLocale loc then (acc.1 + 1, acc.2) else (acc.1, acc.2 + 1))
    (0, 0)

/-- determineEdgeRegion from the deployment hub: simple majority voting. -/
def determineEdgeRegion (locales : List String) : String :=
  let counts := regionCounts locales
  if counts.1 > counts.2 then "fra1"
  else if counts.2 > 0 then "iad1"
  else "global"

/- ---------------- Inbound orchestrator: validation ---------------- -/

/-- isValidUrl from the inbound orchestrator; the platform URL parser
    (the try/catch around the URL constructor) is the parameter. -/
def isValidUrl (urlParses : String → Bool) (url : String) : Bool :=
  if url = "" then false else urlParses url

/-- validateInput from the inbound orchestrator.  The timestamp string is a
    parameter (the source reads the wall clock); the URL parser is a
    parameter (platform collaborator).  Total: every problem is encoded in
    the returned status, no exception path exists. -/
def validateInput (urlParses : String → Bool) (ts : String) (input : BriefInput) :
    ValidatedProject :=
  let errors : List String :=
    (if input.campaignId = "" ∨ (trimString input.campaignId).length < 3 then
      ["Invariant Violation: campaignId must be at least 3 characters."] else []) ++
    (if input.brandName = "" ∨ (trimString input.brandName).length = 0 then
      ["Invariant Violation: brandName is required."] else []) ++
    (if input.coreMessage = "" ∨ (trimString input.coreMessage).length < 10 then
      ["Quality Gate: coreMessage too short for AI generation."] else []) ++
    (if input.targetLocales.length = 0 then
      ["Invariant Violation: At least one targetLocale is required."] else []) ++
    (if !(isValidUrl urlParses input.assets.logoUrl) then
      ["Asset Error: Invalid logoUrl format: " ++ input.assets.logoUrl] else []) ++
    (if !(isValidUrl urlParses input.assets.keywordsCsvUrl) then
      ["Asset Error: Invalid keywordsCsvUrl format: " ++ input.assets.keywordsCsvUrl] else [])
  let status := if errors.length > 0 then ProjectStatus.FAILED else ProjectStatus.VALIDATED
  let compliance := computeGeoCompliance input.targetLocales
  { projectId := input.campaignId
    timestamp := ts
    status := status
    payload := input
    compliance := compliance }

/- ---------------- Creative engine ---------------- -/

structure UIContentVariant where
  locale : String
  heroTitle : String
  bodyCopy : String
  ctaText : String
  layoutId : String
deriving DecidableEq, Repr

structure CreativeEngineOutput where
  projectId : String
  variants : List UIContentVariant
  generationModel : String
  errors : Option (List String)
deriving DecidableEq, Repr

/-- The locale set that gets the wide layout. -/
def textHeavyLocales : List String := ["de-DE", "ru-RU", "fi-FI"]

/-- determineLayout from the creative engine. -/
def determineLayout (locale : String) : String :=
  if textHeavyLocales.contains locale then "layout-wide-v2"
  else "layout-minimal-v1"

/-- stubAIGeneration from the creative engine: the deterministic content
    derivation (the simulated latency has no observable effect). -/
def stubAIGeneration (coreMessage : String) (locale : String) : UIContentVariant :=
  let localizedPrefix := "[" ++ upperAscii locale ++ "]"
  { locale := locale
    heroTitle := localizedPrefix ++ " Future of Living: " ++ substringTo coreMessage 20 ++ "..."
    bodyCopy := localizedPrefix ++ " Experience the " ++ coreMessage ++ " in a way that respects your local culture. This is a generated description ensuring semantic consistency."
    ctaText := localizedPrefix ++ " Discover More"
    layoutId := determineLayout locale }

def statusString : ProjectStatus → String
  | ProjectStatus.VALIDATED => "VALIDATED"
  | ProjectStatus.FAILED => "FAILED"

/-- The forEach aggregation loop over the settled results: fulfilled results
    are pushed onto the variants array, rejected ones onto the errors array,
    in result-array order (Promise.allSettled yields results in submission
    order). -/
def collectSettled (results : List (Except String UIContentVariant)) :
    List UIContentVariant × List String :=
  results.foldl
    (fun acc r =>
      match r with
      | Except.ok v => (acc.1 ++ [v], acc.2)
      | Except.error e => (acc.1, acc.2 ++ [e]))
    ([], [])

/-- generateCreatives from the creative engine.  The per-locale generation
    task (stubAIGeneration, monkey-patchable in the harness to fail) is the
    parameter gen; a task's outcome is an Except value standing for the
    settled promise. -/
def generateCreatives (gen : String → String → Except String UIContentVariant)
    (project : ValidatedProject) : Except String CreativeEngineOutput :=
  if project.status != ProjectStatus.VALIDATED then
    Except.error ("[CreativeAIEngine] Invariant Violation: Cannot process project with status "
      ++ statusString project.status)
  else
    let results := project.payload.targetLocales.map
      (fun locale => gen project.payload.coreMessage locale)
    let collected := collectSettled results
    Except.ok
      { projectId := project.projectId
        variants := collected.1
        generationModel := "gpt-4o-stub-v1"
        errors := if collected.2.length > 0 then some collected.2 else none }

/- ---------------- SEO agent ---------------- -/

structure StructuredData where
  atContext : String
  atType : String
  name : String
  description : String
  inLanguage : String
deriving DecidableEq, Repr

structure SEOMetadata where
  title : String
  description : String
  ogTags : List (String × String)
  canonicalUrl : String
  hreflang : List (String × String)
  structuredData : StructuredData
deriving DecidableEq, Repr

structure SEOOptimizedVariant extends UIContentVariant where
  seo : SEOMetadata
  keywordsApplied : List String
deriving DecidableEq, Repr

def MAX_TITLE_LENGTH : Nat := 60

def MAX_DESC_LENGTH : Nat := 160

/-- truncate from the SEO agent: hard truncation with ellipsis marker. -/
def truncate (text : String) (maxLength : Nat) : String :=
  if text.length ≤ maxLength then text
  else substringTo text (maxLength - 3) ++ "..."

/-- stubUrlBuilder: deterministic locale-keyed URL pattern. -/
def stubUrlBuilder (locale : String) : String :=
  "https://microsite-factory.com/" ++ locale ++ "/campaign-mvc"

/-- The fixed reference locale set of the hreflang map. -/
def supportedLocales : List String := ["en-US", "it-IT", "fr-FR", "es-ES", "de-DE"]

/-- generateHreflangMap: one entry per supported locale, via stubUrlBuilder. -/
def generateHreflangMap : List (String × String) :=
  supportedLocales.map (fun loc => (loc, stubUrlBuilder loc))

/-- stubKeywordDatabase: locale-keyed lookup with a default keyword set. -/
def stubKeywordDatabase (locale : String) : List String :=
  if locale = "en-US" then ["Best Villas", "Luxury Living", "Investment"]
  else if locale = "it-IT" then ["Migliori Ville", "Vita di Lusso", "Investimenti"]
  else if locale = "fr-FR" then ["Meilleures Villas", "Vie de Luxe", "Investissement"]
  else if locale = "es-ES" then ["Mejores Villas", "Vida de Lujo", "Inversión"]
  else if locale = "de-DE" then ["Besten Villen", "Luxusleben", "Investition"]
  else ["Luxury Real Estate"]

/-- keywords[0] with the JS falsy-default: an absent or empty head falls
    back to the Brand keyword. -/
def primaryKeywordOf (keywords : List String) : String :=
  match keywords with
  | [] => "Brand"
  | k :: _ => if k = "" then "Brand" else k

/-- generateMetadata from the SEO agent. -/
def generateMetadata (variant : UIContentVariant) (keyword : String) : SEOMetadata :=
  let rawTitle := variant.heroTitle ++ " | " ++ keyword
  let title := truncate rawTitle MAX_TITLE_LENGTH
  let rawDesc := substringTo variant.bodyCopy 100 ++ "... " ++ variant.ctaText
  let description := truncate rawDesc MAX_DESC_LENGTH
  let canonicalUrl := stubUrlBuilder variant.locale
  let hreflangMap := generateHreflangMap
  let structuredData : StructuredData :=
    { atContext := "https://schema.org"
      atType := "WebPage"
      name := title
      description := description
      inLanguage := variant.locale }
  { title := title
    description := description
    ogTags := [("og:title", title), ("og:description", description),
               ("og:locale", variant.locale), ("og:url", canonicalUrl)]
    canonicalUrl := canonicalUrl
    hreflang := hreflangMap
    structuredData := structuredData }

/-- optimizeSEO from the SEO agent. -/
def optimizeSEO (variant : UIContentVariant) : Except String SEOOptimizedVariant :=
  if variant.locale = "" ∨ variant.heroTitle = "" then
    Except.error ("[SeoSemanticAgent] Invariant Violation: Invalid input variant for locale "
      ++ variant.locale)
  else
    let keywords := stubKeywordDatabase variant.locale
    let primaryKeyword := primaryKeywordOf keywords
    let seoMetadata := generateMetadata variant primaryKeyword
    Except.ok
      { toUIContentVariant := variant
        seo := seoMetadata
        keywordsApplied := keywords }

/- ---------------- Geo deployment hub ---------------- -/

structure MiddlewareRules where
  geoBlocking : Bool
  consentRequired : Bool
deriving DecidableEq, Repr

structure DeploymentConfig where
  deploymentId : String
  edgeRegion : String
  isLive : Bool
  telemetryEndpoint : String
  middlewareRules : MiddlewareRules
deriving DecidableEq, Repr

/-- stubVercelDeploy: the deployment id pattern; the source suffixes a
    wall-clock token, here a parameter. -/
def stubVercelDeploy (token : String) (region : String) : String :=
  "dpl_" ++ region ++ "_" ++ token

/-- stubTelemetryProvisioning: endpoint keyed to the deployment id. -/
def stubTelemetryProvisioning (deploymentId : String) : String :=
  "https://analytics.microsite-factory.com/v1/events/" ++ deploymentId

/-- executeGeoDeploy from the deployment hub. -/
def executeGeoDeploy (token : String) (seoVariants : List SEOOptimizedVariant)
    (compliance : GeoCompliance) : Except String DeploymentConfig :=
  if seoVariants.length = 0 then
    Except.error "[GeoDeploymentHub] Invariant Violation: No variants provided for deployment."
  else
    let middlewareRules : MiddlewareRules :=
      { geoBlocking := false, consentRequired := compliance.requiresGDPR }
    let targetRegion := determineEdgeRegion (seoVariants.map (fun v => v.locale))
    let deploymentId := stubVercelDeploy token targetRegion
    let telemetryEndpoint := stubTelemetryProvisioning deploymentId
    Except.ok
      { deploymentId := deploymentId
        edgeRegion := targetRegion
        isLive := true
        telemetryEndpoint := telemetryEndpoint
        middlewareRules := middlewareRules }

/- ---------------- Main orchestrator ---------------- -/

/-- Step 3 of the pipeline: Promise.all over optimizeSEO (all-or-nothing). -/
def optimizeAll (variants : List UIContentVariant) :
    Except String (List SEOOptimizedVariant) :=
  variants.mapM optimizeSEO

/-- runPipeline from the main orchestrator: validation, halt on FAILED,
    then generation, optimization, deployment, threading the compliance
    object from validation directly into deployment. -/
def runPipeline (urlParses : String → Bool) (ts : String) (token : String)
    (gen : String → String → Except String UIContentVariant)
    (brief : BriefInput) : Except String DeploymentConfig :=
  let validatedProjet := validateInput urlParses ts brief
  if validatedProjet.status = ProjectStatus.FAILED then
    Except.error "Pipeline Halted: Input validation failed."
  else
    (generateCreatives gen validatedProjet).bind (fun creativeOutput =>
      (optimizeAll creativeOutput.variants).bind (fun seoVariants =>
        executeGeoDeploy token seoVariants validatedProjet.compliance))

/- ---------------- helper lemmas ---------------- -/

theorem isEuTargetedScan_eq_true_iff (locales : List String) :
    isEuTargetedScan locales = true ↔
      ∃ l ∈ locales, langPart l ∈ euLocalesValidator := by
  induction locales with
  | nil => simp [isEuTargetedScan]
  | cons x xs ih =>
    simp [isEuTargetedScan, ih]

theorem regionCounts_eq (locales : List String) :
    regionCounts locales =
      (locales.countP (fun l => isEuLocale l),
       locales.countP (fun l => !isEuLocale l)) := by
  have key : ∀ (l : List String) (a b : Nat),
      l.foldl
        (fun acc loc => if isEuLocale loc then (acc.1 + 1, acc.2) else (acc.1, acc.2 + 1))
        (a, b) =
      (a + l.countP (fun x => isEuLocale x), b + l.countP (fun x => !isEuLocale x)) := by
    intro l
    induction l with
    | nil => intro a b; simp
    | cons x xs ih =>
      intro a b
      by_cases hx : isEuLocale x
      · simp [List.countP_cons, hx, ih]
        omega
      · simp [List.countP_cons, hx, ih]
        omega
  simpa using key locales 0 0

/-- Length splits into the count of a Boolean predicate and of its negation. -/
theorem length_eq_countP_add_countP_not {α : Type} (p : α → Bool) (l : List α) :
    l.length = l.countP p + l.countP (fun a => !p a) := by
  have h := List.length_eq_countP_add_countP p l
  have hfun : (fun a => decide ¬(p a = true)) = fun a => !p a := by
    funext a
    cases ha : p a <;> simp [ha]
  rw [hfun] at h
  exact h

/-- The countP form of the length split used for region voting. -/
theorem length_eq_eu_add_nonEu (locales : List String) :
    locales.length =
      locales.countP (fun l => isEuLocale l) +
        locales.countP (fun l => !isEuLocale l) :=
  length_eq_countP_add_countP_not (fun l => isEuLocale l) locales

/-- The error component of a settled generation task. -/
def errOption (r : Except String UIContentVariant) : Option String :=
  match r with
  | Except.error e => some e
  | Except.ok _ => none

/-- The push-loop over the settled results equals the two filterMap
    projections of the result list, in order. -/
theorem collectSettled_eq (results : List (Except String UIContentVariant)) :
    collectSettled results =
      (results.filterMap (fun r => r.toOption), results.filterMap errOption) := by
  have key : ∀ (rs : List (Except String UIContentVariant))
      (vs : List UIContentVariant) (es : List String),
      rs.foldl
        (fun acc r =>
          match r with
          | Except.ok v => (acc.1 ++ [v], acc.2)
          | Except.error e => (acc.1, acc.2 ++ [e]))
        (vs, es) =
      (vs ++ rs.filterMap (fun r => r.toOption), es ++ rs.filterMap errOption) := by
    intro rs
    induction rs with
    | nil => intro vs es; simp
    | cons r rs ih =>
      intro vs es
      cases r with
      | ok v => simp [ih, Except.toOption, errOption]
      | error e => simp [ih, Except.toOption, errOption]
  simpa [collectSettled] using key results [] []

/-- A settled generation task that failed. -/
def isFailure (r : Except String UIContentVariant) : Bool :=
  match r with
  | Except.error _ => true
  | Except.ok _ => false

theorem isFailure_ok (v : UIContentVariant) : isFailure (Except.ok v) = false := rfl

theorem isFailure_error (e : String) : isFailure (Except.error e) = true := rfl

theorem toOption_ok (v : UIContentVariant) :
    (Except.ok v : Except String UIContentVariant).toOption = some v := rfl

theorem toOption_error (e : String) :
    (Except.error e : Except String UIContentVariant).toOption =
      (none : Option UIContentVariant) := rfl

theorem errOption_ok (v : UIContentVariant) : errOption (Except.ok v) = none := rfl

theorem errOption_error (e : String) : errOption (Except.error e) = some e := rfl

/-- Counting the successful settled results. -/
theorem length_filterMap_toOption (rs : List (Except String UIContentVariant)) :
    (rs.filterMap (fun r => r.toOption)).length = rs.countP (fun r => !isFailure r) := by
  induction rs with
  | nil => simp
  | cons r rs ih =>
    cases r <;>
      simp [List.filterMap_cons, List.countP_cons, toOption_ok, toOption_error,
        isFailure_ok, isFailure_error, ih]

/-- Counting the failed settled results. -/
theorem length_filterMap_errOption (rs : List (Except String UIContentVariant)) :
    (rs.filterMap errOption).length = rs.countP (fun r => isFailure r) := by
  induction rs with
  | nil => simp
  | cons r rs ih =>
    cases r <;>
      simp [List.filterMap_cons, List.countP_cons, errOption_ok, errOption_error,
        isFailure_ok, isFailure_error, ih]

/-- The errors field round-trips: reading it back with a nil default gives
    exactly the collected error list. -/
theorem errorsField_getD (es : List String) :
    (if es.length > 0 then some es else none).getD [] = es := by
  cases es <;> simp

/-- A successful generateCreatives run forces a VALIDATED project and
    determines the output record. -/
theorem generateCreatives_ok_elim (gen : String → String → Except String UIContentVariant)
    (project : ValidatedProject) (out : CreativeEngineOutput)
    (hout : generateCreatives gen project = Except.ok out) :
    project.status = ProjectStatus.VALIDATED ∧
    out.variants = project.payload.targetLocales.filterMap
      (fun l => (gen project.payload.coreMessage l).toOption) ∧
    out.errors.getD [] = project.payload.targetLocales.filterMap
      (fun l => errOption (gen project.payload.coreMessage l)) := by
  by_cases hst : project.status = ProjectStatus.VALIDATED
  · refine ⟨hst, ?_⟩
    rw [generateCreatives] at hout
    simp only [hst, bne_self_eq_false, Bool.false_eq_true, if_false] at hout
    rw [collectSettled_eq] at hout
    obtain rfl := (Except.ok.injEq _ _).mp hout.symm
    constructor
    · simp only [List.filterMap_map]
      rfl
    · show (if _ > 0 then some _ else none).getD [] = _
      rw [errorsField_getD]
      simp only [List.filterMap_map]
      rfl
  · rw [generateCreatives] at hout
    have hb : (project.status != ProjectStatus.VALIDATED) = true := by
      simpa using hst
    rw [hb] at hout
    simp at hout

/-- Per-locale success/failure counting for a generation task map. -/
theorem counts_split (g : String → Except String UIContentVariant) (L : List String) :
    (L.filterMap (fun l => (g l).toOption)).length +
      (L.filterMap (fun l => errOption (g l))).length = L.length ∧
    (L.filterMap (fun l => errOption (g l))).length =
      L.countP (fun l => isFailure (g l)) := by
  induction L with
  | nil => simp
  | cons x xs ih =>
    obtain ⟨ih1, ih2⟩ := ih
    cases hgx : g x with
    | ok v =>
      simp [List.filterMap_cons, List.countP_cons, hgx, toOption_ok, errOption_ok,
        isFailure_ok, List.length_cons]
      all_goals omega
    | error e =>
      simp [List.filterMap_cons, List.countP_cons, hgx, toOption_error, errOption_error,
        isFailure_error, List.length_cons]
      all_goals omega

/- ---------------- Test fixtures ---------------- -/

def sampleAssets : BriefAssets :=
  { logoUrl := "https://ok.com/logo.png", keywordsCsvUrl := "https://ok.com/kw.csv" }

def sampleBrief : BriefInput :=
  { campaignId := "integration-test-2026"
    brandName := "Lusitano Luxury"
    coreMessage := "Exclusive villas in Comporta with sustainable design."
    targetLocales := ["en-US", "it-IT", "de-DE"]
    assets := sampleAssets }

/-- The harness scenario: the generation backend times out on de-DE and
    succeeds elsewhere with the deterministic stub. -/
def genFailDe (coreMessage : String) (locale : String) : Except String UIContentVariant :=
  if locale = "de-DE" then Except.error ("Simulated API Timeout for " ++ locale)
  else Except.ok (stubAIGeneration coreMessage locale)

def sampleProject : ValidatedProject :=
  validateInput (fun _ => true) "2026-10-11T00:00:00.000Z" sampleBrief

def sampleGenOut : CreativeEngineOutput :=
  { projectId := "integration-test-2026"
    variants := [stubAIGeneration sampleBrief.coreMessage "en-US",
                 stubAIGeneration sampleBrief.coreMessage "it-IT"]
    generationModel := "gpt-4o-stub-v1"
    errors := some ["Simulated API Timeout for de-DE"] }

/- ---------------- Claim theorems ---------------- -/

/-- Claim C1, counterexample: on the two-locale list with one EU and one
    non-EU locale the counts are tied, yet region selection returns the
    North-American identifier, not the global fallback the claim states. -/
theorem determineEdgeRegion_tie_counterexample :
    isEuLocale "it-IT" = true ∧ isEuLocale "en-US" = false ∧
    regionCounts ["it-IT", "en-US"] = (1, 1) ∧
    determineEdgeRegion ["it-IT", "en-US"] = "iad1" ∧
    determineEdgeRegion ["it-IT", "en-US"] ≠ "global" := by decide

/-- Claim C1 (amended): for every non-empty locale list, region selection
    returns fra1 when the EU-classified locales hold a strict majority and
    iad1 in every other case, ties included; the global fallback is never
    returned for a non-empty list. -/
theorem determineEdgeRegion_majority (locales : List String) (h : locales ≠ []) :
    (locales.countP (fun l => !isEuLocale l) < locales.countP (fun l => isEuLocale l) →
      determineEdgeRegion locales = "fra1") ∧
    (locales.countP (fun l => isEuLocale l) ≤ locales.countP (fun l => !isEuLocale l) →
      determineEdgeRegion locales = "iad1") := by
  have hlen := length_eq_eu_add_nonEu locales
  have hpos : 0 < locales.length := List.length_pos.mpr h
  constructor
  · intro hgt
    simp only [determineEdgeRegion, regionCounts_eq]
    simp [hgt]
  · intro hle
    have husPos : 0 < locales.countP (fun l => !isEuLocale l) := by omega
    simp only [determineEdgeRegion, regionCounts_eq]
    have hnotgt : ¬(locales.countP (fun l => !isEuLocale l) <
        locales.countP (fun l => isEuLocale l)) := by omega
    simp [hnotgt, husPos]

/-- Claim C1 witness: concrete evaluations of both branches of the amended
    statement. -/
theorem determineEdgeRegion_majority_witness :
    determineEdgeRegion ["it-IT", "fr-FR", "en-US"] = "fra1" ∧
    determineEdgeRegion ["it-IT", "en-US"] = "iad1" :=
  ⟨(determineEdgeRegion_majority ["it-IT", "fr-FR", "en-US"] (by decide)).1 (by decide),
   (determineEdgeRegion_majority ["it-IT", "en-US"] (by decide)).2 (by decide)⟩

/-- Claim C2: the computed policy has requiresGDPR and cookieConsentActive
    true with EU data residency iff some target locale has a
    case-insensitive language prefix in the fixed EU set, and otherwise
    both flags are false with GLOBAL residency. -/
theorem computeGeoCompliance_spec (locales : List String) :
    ((computeGeoCompliance locales).requiresGDPR = true ∧
     (computeGeoCompliance locales).cookieConsentActive = true ∧
     (computeGeoCompliance locales).dataResidency = DataResidency.EU ↔
       ∃ l ∈ locales, langPart l ∈ euLocalesValidator) ∧
    ((¬ ∃ l ∈ locales, langPart l ∈ euLocalesValidator) →
      (computeGeoCompliance locales).requiresGDPR = false ∧
      (computeGeoCompliance locales).cookieConsentActive = false ∧
      (computeGeoCompliance locales).dataResidency = DataResidency.GLOBAL) := by
  have hiff := isEuTargetedScan_eq_true_iff locales
  cases h : isEuTargetedScan locales with
  | true =>
    have hex := hiff.mp h
    exact ⟨by simp [computeGeoCompliance, h, hex], fun hne => absurd hex hne⟩
  | false =>
    have hnex : ¬ ∃ l ∈ locales, langPart l ∈ euLocalesValidator := by
      intro hx
      rw [hiff.mpr hx] at h
      exact Bool.true_eq_false.mp h
    exact ⟨by simp [computeGeoCompliance, h, hnex], fun _ => by simp [computeGeoCompliance, h]⟩

/-- Claim C2 witness: a non-EU-only locale list yields the GLOBAL policy and
    an EU-containing list yields the EU policy. -/
theorem computeGeoCompliance_spec_witness :
    ((computeGeoCompliance ["en-US"]).requiresGDPR = false ∧
     (computeGeoCompliance ["en-US"]).cookieConsentActive = false ∧
     (computeGeoCompliance ["en-US"]).dataResidency = DataResidency.GLOBAL) ∧
    ((computeGeoCompliance ["en-US", "it-IT"]).requiresGDPR = true ∧
     (computeGeoCompliance ["en-US", "it-IT"]).cookieConsentActive = true ∧
     (computeGeoCompliance ["en-US", "it-IT"]).dataResidency = DataResidency.EU) :=
  ⟨(computeGeoCompliance_spec ["en-US"]).2 (by decide),
   (computeGeoCompliance_spec ["en-US", "it-IT"]).1.mpr (by decide)⟩

/-- Claim C10: the validator's EU prefix set and the deployment hub's EU
    prefix set differ on pl, se, fi, dk; for the all-Polish locale list the
    policy mandates EU residency with GDPR on while region selection picks
    the North-American region iad1. -/
theorem eu_prefix_sets_diverge :
    euLocalesValidator ≠ euPrefixesHub ∧
    (∀ p ∈ (["pl", "se", "fi", "dk"] : List String),
      p ∈ euLocalesValidator ∧ p ∉ euPrefixesHub) ∧
    (computeGeoCompliance ["pl-PL"]).requiresGDPR = true ∧
    (computeGeoCompliance ["pl-PL"]).cookieConsentActive = true ∧
    (computeGeoCompliance ["pl-PL"]).dataResidency = DataResidency.EU ∧
    determineEdgeRegion ["pl-PL"] = "iad1" := by decide

/-- Claim C3: for any two non-empty variant lists deployed under the same
    policy, deployment succeeds and consentRequired is copied verbatim from
    the supplied requiresGDPR, so both runs agree regardless of locales. -/
theorem executeGeoDeploy_policy_blind (token : String) (compliance : GeoCompliance)
    (v1 v2 : List SEOOptimizedVariant) (h1 : v1 ≠ []) (h2 : v2 ≠ []) :
    ∃ c1 c2,
      executeGeoDeploy token v1 compliance = Except.ok c1 ∧
      executeGeoDeploy token v2 compliance = Except.ok c2 ∧
      c1.middlewareRules.consentRequired = compliance.requiresGDPR ∧
      c2.middlewareRules.consentRequired = c1.middlewareRules.consentRequired := by
  have h1' : ¬(v1.length = 0) := fun hz => h1 (List.length_eq_zero.mp hz)
  have h2' : ¬(v2.length = 0) := fun hz => h2 (List.length_eq_zero.mp hz)
  unfold executeGeoDeploy
  rw [if_neg h1', if_neg h2']
  exact ⟨_, _, rfl, rfl, rfl, rfl⟩

/-- A forged policy with GDPR off, paired below with EU content. -/
def forgedPolicy : GeoCompliance :=
  { requiresGDPR := false, cookieConsentActive := false
    dataResidency := DataResidency.GLOBAL }

/-- A minimal optimized variant for a given locale (the harness forges one
    with an empty seo object). -/
def sampleSeoVariant (locale : String) : SEOOptimizedVariant :=
  { locale := locale, heroTitle := "Bonjeur", bodyCopy := "Oui", ctaText := "Allez"
    layoutId := "std"
    seo := { title := "", description := "", ogTags := [], canonicalUrl := ""
             hreflang := []
             structuredData := { atContext := "", atType := "", name := ""
                                 description := "", inLanguage := locale } }
    keywordsApplied := [] }

/-- Claim C3 witness: the mismatched-policy scenario, French content with a
    GDPR-off policy, against a second run with American content. -/
theorem executeGeoDeploy_policy_blind_witness :
    ∃ c1 c2,
      executeGeoDeploy "tok" [sampleSeoVariant "fr-FR"] forgedPolicy = Except.ok c1 ∧
      executeGeoDeploy "tok" [sampleSeoVariant "en-US"] forgedPolicy = Except.ok c2 ∧
      c1.middlewareRules.consentRequired = forgedPolicy.requiresGDPR ∧
      c2.middlewareRules.consentRequired = c1.middlewareRules.consentRequired :=
  executeGeoDeploy_policy_blind "tok" forgedPolicy
    [sampleSeoVariant "fr-FR"] [sampleSeoVariant "en-US"] (by decide) (by decide)

/-- Claim C4: for a validated project whose N target locales contain exactly
    K failing generation tasks, the outcome holds N - K variants and K
    failure messages, and their sum is N. -/
theorem generateCreatives_counts (gen : String → String → Except String UIContentVariant)
    (project : ValidatedProject) (out : CreativeEngineOutput) (K : Nat)
    (_hst : project.status = ProjectStatus.VALIDATED)
    (hK : K = project.payload.targetLocales.countP
      (fun l => isFailure (gen project.payload.coreMessage l)))
    (hout : generateCreatives gen project = Except.ok out) :
    out.variants.length = project.payload.targetLocales.length - K ∧
    (out.errors.getD []).length = K ∧
    out.variants.length + (out.errors.getD []).length =
      project.payload.targetLocales.length := by
  obtain ⟨-, hv, he⟩ := generateCreatives_ok_elim gen project out hout
  have h := counts_split (fun l => gen project.payload.coreMessage l)
    project.payload.targetLocales
  rw [hv, he]
  obtain ⟨hsum, herr⟩ := h
  refine ⟨by omega, by omega, by omega⟩

/-- Claim C4 witness: three locales with the de-DE task failing give two
    variants and one failure message. -/
theorem generateCreatives_counts_witness :
    sampleGenOut.variants.length = sampleProject.payload.targetLocales.length - 1 ∧
    (sampleGenOut.errors.getD []).length = 1 ∧
    sampleGenOut.variants.length + (sampleGenOut.errors.getD []).length =
      sampleProject.payload.targetLocales.length :=
  generateCreatives_counts genFailDe sampleProject sampleGenOut 1
    (by decide) (by decide) (by decide)

/-- Claim C9: the successful variants of a generation run are exactly the
    per-locale successes in target-locale submission order (the settled
    results are collected in submission order, so completion order cannot
    affect the output). -/
theorem generateCreatives_order (gen : String → String → Except String UIContentVariant)
    (project : ValidatedProject) (out : CreativeEngineOutput)
    (hout : generateCreatives gen project = Except.ok out) :
    out.variants = project.payload.targetLocales.filterMap
      (fun l => (gen project.payload.coreMessage l).toOption) :=
  (generateCreatives_ok_elim gen project out hout).2.1

/-- Claim C9 witness: with de-DE failing, the variants are the en-US and
    it-IT successes in submission order. -/
theorem generateCreatives_order_witness :
    sampleGenOut.variants = sampleProject.payload.targetLocales.filterMap
      (fun l => (genFailDe sampleProject.payload.coreMessage l).toOption) :=
  generateCreatives_order genFailDe sampleProject sampleGenOut (by decide)

/- ---------------- String and validation helper lemmas ---------------- -/

theorem length_append_chars (s t : String) : (s ++ t).length = s.length + t.length := by
  show (s.data ++ t.data).length = s.data.length + t.data.length
  exact List.length_append s.data t.data

theorem trimString_empty : trimString "" = "" := rfl

theorem string_len_zero_iff (s : String) : s.length = 0 ↔ s = "" := by
  constructor
  · intro h
    obtain ⟨data⟩ := s
    cases data with
    | nil => rfl
    | cons c cs =>
      have hc : (c :: cs).length = 0 := h
      simp at hc
  · rintro rfl
    rfl

theorem length_flag (c : Prop) [Decidable c] (m : String) :
    (if c then [m] else ([] : List String)).length = if c then 1 else 0 := by
  split <;> rfl

theorem ite_status_failed (n : Nat) :
    (if n > 0 then ProjectStatus.FAILED else ProjectStatus.VALIDATED) =
      ProjectStatus.FAILED ↔ 0 < n := by
  split <;> rename_i h
  · simpa using h
  · simp
    omega

theorem not_short_check {s : String} {n : Nat} (hn : 0 < n)
    (h : n ≤ (trimString s).length) :
    ¬(s = "" ∨ (trimString s).length < n) := by
  rintro (rfl | hlt)
  · rw [trimString_empty] at h
    have hz : ("" : String).length = 0 := rfl
    omega
  · omega

theorem not_blank_check {s : String} (h : trimString s ≠ "") :
    ¬(s = "" ∨ (trimString s).length = 0) := by
  rintro (rfl | hz)
  · exact h trimString_empty
  · exact h ((string_len_zero_iff (trimString s)).mp hz)

/-- A brief whose brand name is one blank: non-empty as a string, but empty
    after the trim the code applies. -/
def blankBrandBrief : BriefInput :=
  { campaignId := "valid-id"
    brandName := " "
    coreMessage := "A sufficiently long core message."
    targetLocales := ["en-US"]
    assets := sampleAssets }

/-- Claim C5, counterexample: the blank-brand brief passes all five checks
    as the claim words them, with every URL accepted, yet validateInput
    marks it FAILED, because the code checks the trimmed brand name. -/
theorem validateInput_blank_brand_counterexample :
    blankBrandBrief.campaignId ≠ "" ∧ 3 ≤ blankBrandBrief.campaignId.length ∧
    blankBrandBrief.brandName ≠ "" ∧
    10 ≤ blankBrandBrief.coreMessage.length ∧
    blankBrandBrief.targetLocales ≠ [] ∧
    isValidUrl (fun _ => true) blankBrandBrief.assets.logoUrl = true ∧
    isValidUrl (fun _ => true) blankBrandBrief.assets.keywordsCsvUrl = true ∧
    (validateInput (fun _ => true) "2026-10-11T00:00:00.000Z" blankBrandBrief).status =
      ProjectStatus.FAILED := by decide

/-- Claim C5 (amended): validateInput is a total function, so no exception
    escapes; the status is FAILED iff one of the five checks fails where the
    string checks read the trimmed strings (trimmed campaign identifier
    length at least 3, trimmed brand name non-empty, trimmed core message
    length at least 10, a non-empty target-locale list, both asset URLs
    accepted), and VALIDATED otherwise. -/
theorem validateInput_status_iff (urlParses : String → Bool) (ts : String)
    (input : BriefInput) :
    ((validateInput urlParses ts input).status = ProjectStatus.FAILED ↔
      ¬(3 ≤ (trimString input.campaignId).length ∧
        trimString input.brandName ≠ "" ∧
        10 ≤ (trimString input.coreMessage).length ∧
        input.targetLocales ≠ [] ∧
        isValidUrl urlParses input.assets.logoUrl = true ∧
        isValidUrl urlParses input.assets.keywordsCsvUrl = true)) ∧
    ((validateInput urlParses ts input).status = ProjectStatus.VALIDATED ↔
      (3 ≤ (trimString input.campaignId).length ∧
        trimString input.brandName ≠ "" ∧
        10 ≤ (trimString input.coreMessage).length ∧
        input.targetLocales ≠ [] ∧
        isValidUrl urlParses input.assets.logoUrl = true ∧
        isValidUrl urlParses input.assets.keywordsCsvUrl = true)) := by
  have hkey : (validateInput urlParses ts input).status = ProjectStatus.FAILED ↔
      ¬(3 ≤ (trimString input.campaignId).length ∧
        trimString input.brandName ≠ "" ∧
        10 ≤ (trimString input.coreMessage).length ∧
        input.targetLocales ≠ [] ∧
        isValidUrl urlParses input.assets.logoUrl = true ∧
        isValidUrl urlParses input.assets.keywordsCsvUrl = true) := by
    simp only [validateInput]
    rw [ite_status_failed]
    simp only [List.length_append, length_flag]
    constructor
    · intro hpos hclean
      obtain ⟨hc1, hc2, hc3, hc4, hc5, hc6⟩ := hclean
      rw [if_neg (not_short_check (by decide) hc1),
          if_neg (not_blank_check hc2),
          if_neg (not_short_check (by decide) hc3),
          if_neg (fun hz => hc4 (List.length_eq_zero.mp hz)),
          if_neg (show ¬((!isValidUrl urlParses input.assets.logoUrl) = true) by
            simp [hc5]),
          if_neg (show ¬((!isValidUrl urlParses input.assets.keywordsCsvUrl) = true) by
            simp [hc6])] at hpos
      omega
    · intro hnclean
      by_contra hz
      push_neg at hz
      have h1 : ¬(input.campaignId = "" ∨ (trimString input.campaignId).length < 3) := by
        intro hc
        rw [if_pos hc] at hz
        omega
      have h2 : ¬(input.brandName = "" ∨ (trimString input.brandName).length = 0) := by
        intro hc
        rw [if_pos hc] at hz
        omega
      have h3 : ¬(input.coreMessage = "" ∨ (trimString input.coreMessage).length < 10) := by
        intro hc
        rw [if_pos hc] at hz
        omega
      have h4 : ¬(input.targetLocales.length = 0) := by
        intro hc
        rw [if_pos hc] at hz
        omega
      have h5 : ¬((!isValidUrl urlParses input.assets.logoUrl) = true) := by
        intro hc
        rw [if_pos hc] at hz
        omega
      have h6 : ¬((!isValidUrl urlParses input.assets.keywordsCsvUrl) = true) := by
        intro hc
        rw [if_pos hc] at hz
        omega
      push_neg at h1 h2 h3
      refine hnclean ⟨by omega, ?_, by omega, ?_, ?_, ?_⟩
      · intro he
        exact h2.2 ((string_len_zero_iff (trimString input.brandName)).mpr he)
      · intro he
        exact h4 (by rw [he]; rfl)
      · simpa using h5
      · simpa using h6
  have hdichot : (validateInput urlParses ts input).status = ProjectStatus.VALIDATED ↔
      ¬((validateInput urlParses ts input).status = ProjectStatus.FAILED) := by
    cases h : (validateInput urlParses ts input).status <;> simp
  refine ⟨hkey, ?_⟩
  rw [hdichot, hkey, not_not]

/-- Claim C5 witness: a well-formed brief validates, the blank-brand brief
    fails, each via the amended equivalence at a concrete input. -/
theorem validateInput_status_iff_witness :
    (validateInput (fun _ => true) "t" sampleBrief).status = ProjectStatus.VALIDATED ∧
    (validateInput (fun _ => true) "t" blankBrandBrief).status = ProjectStatus.FAILED :=
  ⟨(validateInput_status_iff (fun _ => true) "t" sampleBrief).2.mpr (by decide),
   (validateInput_status_iff (fun _ => true) "t" blankBrandBrief).1.mpr (by decide)⟩

/-- A brief failing validation: short campaign identifier and no locales. -/
def badBrief : BriefInput :=
  { campaignId := "x"
    brandName := "B"
    coreMessage := "long enough core message"
    targetLocales := []
    assets := sampleAssets }

/-- Claim C6: on a FAILED validation the pipeline returns the halt error and
    its result is independent of the generation backend and deployment
    token, so no later stage is invoked; on a VALIDATED project the pipeline
    is exactly generation followed by optimization and deployment. -/
theorem runPipeline_halts_on_failed (urlParses : String → Bool) (ts token : String)
    (gen : String → String → Except String UIContentVariant) (brief : BriefInput) :
    ((validateInput urlParses ts brief).status = ProjectStatus.FAILED →
      runPipeline urlParses ts token gen brief =
        Except.error "Pipeline Halted: Input validation failed." ∧
      ∀ (token2 : String) (gen2 : String → String → Except String UIContentVariant),
        runPipeline urlParses ts token2 gen2 brief =
          runPipeline urlParses ts token gen brief) ∧
    ((validateInput urlParses ts brief).status = ProjectStatus.VALIDATED →
      runPipeline urlParses ts token gen brief =
        (generateCreatives gen (validateInput urlParses ts brief)).bind
          (fun creativeOutput =>
            (optimizeAll creativeOutput.variants).bind (fun seoVariants =>
              executeGeoDeploy token seoVariants
                (validateInput urlParses ts brief).compliance))) := by
  constructor
  · intro hf
    have he : ∀ (token2 : String)
        (gen2 : String → String → Except String UIContentVariant),
        runPipeline urlParses ts token2 gen2 brief =
          Except.error "Pipeline Halted: Input validation failed." := by
      intro token2 gen2
      simp only [runPipeline]
      rw [if_pos hf]
    refine ⟨he token gen, fun token2 gen2 => ?_⟩
    rw [he token gen, he token2 gen2]
  · intro hv
    have hnf : ¬((validateInput urlParses ts brief).status = ProjectStatus.FAILED) := by
      rw [hv]
      intro h
      exact ProjectStatus.noConfusion h
    simp only [runPipeline]
    rw [if_neg hnf]

/-- Claim C6 witness: the short-identifier brief fails validation and the
    pipeline halts with the halt error. -/
theorem runPipeline_halts_on_failed_witness :
    (validateInput (fun _ => true) "t" badBrief).status = ProjectStatus.FAILED ∧
    runPipeline (fun _ => true) "t" "tok" genFailDe badBrief =
      Except.error "Pipeline Halted: Input validation failed." :=
  ⟨by decide,
   ((runPipeline_halts_on_failed (fun _ => true) "t" "tok" genFailDe badBrief).1
     (by decide)).1⟩

/-- Claim C7: for the SEO limits (60 for titles, 160 for descriptions),
    truncation returns strings within the limit unchanged and otherwise a
    string of exactly the limit's length ending in the ellipsis marker. -/
theorem truncate_spec (text : String) (maxLength : Nat)
    (hlim : maxLength = MAX_TITLE_LENGTH ∨ maxLength = MAX_DESC_LENGTH) :
    (text.length ≤ maxLength → truncate text maxLength = text) ∧
    (maxLength < text.length →
      (truncate text maxLength).length = maxLength ∧
      ∃ p, truncate text maxLength = p ++ "...") := by
  have hlen3 : 3 ≤ maxLength := by
    rcases hlim with h | h <;> rw [h] <;> decide
  constructor
  · intro h
    simp [truncate, h]
  · intro h
    have hne : ¬(text.length ≤ maxLength) := not_le.mpr h
    have htr : truncate text maxLength = substringTo text (maxLength - 3) ++ "..." := by
      simp [truncate, hne]
    refine ⟨?_, ⟨substringTo text (maxLength - 3), htr⟩⟩
    rw [htr, length_append_chars]
    have htake : (substringTo text (maxLength - 3)).length = maxLength - 3 := by
      show (text.data.take (maxLength - 3)).length = maxLength - 3
      rw [List.length_take]
      have hdl : text.length = text.data.length := rfl
      omega
    rw [htake]
    have hdots : ("..." : String).length = 3 := rfl
    rw [hdots]
    omega

def longTitle : String :=
  "This raw title is deliberately made much longer than the sixty character SERP limit"

/-- Claim C7 witness: a short title is unchanged at limit 60; the long title
    truncates to exactly 60 characters ending in the ellipsis marker. -/
theorem truncate_spec_witness :
    truncate "Short title" 60 = "Short title" ∧
    (truncate longTitle 60).length = 60 ∧
    ∃ p, truncate longTitle 60 = p ++ "..." :=
  ⟨(truncate_spec "Short title" 60 (Or.inl rfl)).1 (by decide),
   ((truncate_spec longTitle 60 (Or.inl rfl)).2 (by decide)).1,
   ((truncate_spec longTitle 60 (Or.inl rfl)).2 (by decide)).2⟩

/-- Claim C8: optimizeSEO succeeds on every variant with a locale and a hero
    title, and the hreflang mapping has exactly the fixed reference locale
    set as its keys, in order, each mapped through the same deterministic
    URL pattern used for the canonical URL, whatever the variant's own
    locale is. -/
theorem optimizeSEO_hreflang_full (variant : UIContentVariant)
    (h1 : variant.locale ≠ "") (h2 : variant.heroTitle ≠ "") :
    ∃ out, optimizeSEO variant = Except.ok out ∧
      out.seo.hreflang.map Prod.fst = supportedLocales ∧
      (∀ pr ∈ out.seo.hreflang, pr.2 = stubUrlBuilder pr.1) ∧
      out.seo.canonicalUrl = stubUrlBuilder variant.locale := by
  have hcond : ¬(variant.locale = "" ∨ variant.heroTitle = "") := by
    rintro (h | h)
    · exact h1 h
    · exact h2 h
  refine ⟨{ toUIContentVariant := variant
            seo := generateMetadata variant
              (primaryKeywordOf (stubKeywordDatabase variant.locale))
            keywordsApplied := stubKeywordDatabase variant.locale }, ?_, ?_, ?_, ?_⟩
  · unfold optimizeSEO
    rw [if_neg hcond]
  · show generateHreflangMap.map Prod.fst = supportedLocales
    decide
  · show ∀ pr ∈ generateHreflangMap, pr.2 = stubUrlBuilder pr.1
    decide
  · rfl

/-- Claim C8 witness: a variant in a locale outside the reference set still
    gets the full five-locale hreflang map. -/
theorem optimizeSEO_hreflang_full_witness :
    ∃ out,
      optimizeSEO (stubAIGeneration sampleBrief.coreMessage "ja-JP") = Except.ok out ∧
      out.seo.hreflang.map Prod.fst = supportedLocales ∧
      (∀ pr ∈ out.seo.hreflang, pr.2 = stubUrlBuilder pr.1) ∧
      out.seo.canonicalUrl =
        stubUrlBuilder (stubAIGeneration sampleBrief.coreMessage "ja-JP").locale :=
  optimizeSEO_hreflang_full (stubAIGeneration sampleBrief.coreMessage "ja-JP")
    (by decide) (by decide)

end MicrositeFactory
